import Mathlib

/-!
Verification development for the SSR core of a vanilla-JS product-catalog app:
a path-pattern router, a reducer-style per-request server store, a server
renderer, and a client hydration bridge.  All definitions are shallow
embeddings translated from `src/packages/vanilla/src/main-server.js` and
`src/unnamed/part_000` (the client entry); definitions whose source is not
included in the repository snapshot are explicitly marked
"Modelled from the spec".
-/

set_option maxRecDepth 4096

/-! ### Generic character-list utilities (JS string primitives) -/

/-- `String.prototype.split(sep)` on character lists: splits at every
occurrence of `sep`; `"".split(sep)` is `[""]`. -/
def splitOnChar (sep : Char) : List Char → List (List Char)
  | [] => [[]]
  | c :: cs =>
    match splitOnChar sep cs with
    | [] => [[c]]
    | h :: t => if c = sep then [] :: h :: t else (c :: h) :: t

/-- Whether a character list ends with the character `c`. -/
def endsWithChar (c : Char) : List Char → Bool
  | [] => false
  | [x] => x = c
  | _ :: x :: xs => endsWithChar c (x :: xs)

/-- `String.prototype.includes` on character lists. -/
def listIncludes (needle : List Char) : List Char → Bool
  | [] => needle.isEmpty
  | h :: t => needle.isPrefixOf (h :: t) || listIncludes needle t

/-- `String.prototype.replace(pat, repl)` with a plain-string pattern:
replaces only the FIRST occurrence (JS semantics). -/
def replaceFirstAux (pat repl : List Char) : List Char → List Char
  | [] => []
  | c :: cs =>
    if pat.isPrefixOf (c :: cs) then repl ++ (c :: cs).drop pat.length
    else c :: replaceFirstAux pat repl cs

/-- `String.replace(pat, repl)` (first occurrence only) lifted to `String`. -/
def replaceFirst (s pat repl : String) : String :=
  String.mk (replaceFirstAux pat.toList repl.toList s.toList)

/-- JS `parseInt(s, 10)`: skip leading whitespace, optional sign, take the
leading run of decimal digits; `none` models `NaN`. -/
def jsParseInt : Option String → Option Int
  | none => none
  | some s =>
    let cs := s.toList.dropWhile (fun c => c.isWhitespace)
    let signed : Int × List Char :=
      match cs with
      | '-' :: t => (-1, t)
      | '+' :: t => (1, t)
      | _ => (1, cs)
    let ds := signed.2.takeWhile (fun c => c.isDigit)
    if ds.isEmpty then none
    else some (signed.1 * (Int.ofNat (ds.foldl (fun n c => n * 10 + (c.toNat - 48)) 0)))

/-- JS `x || d` for an integer `x` that may be `NaN` (`none`): `0` and `NaN`
are falsy. -/
def jsOrInt (x : Option Int) (d : Int) : Int :=
  match x with
  | none => d
  | some v => if v = 0 then d else v

/-- JS `x || d` for a string that may be `undefined`: `undefined` and `""`
are falsy. -/
def jsOrStr (x : Option String) (d : String) : String :=
  match x with
  | none => d
  | some v => if v = "" then d else v

/-- JS truthiness of a nullable string (`null`/`undefined` and `""` falsy). -/
def jsTruthyStr : Option String → Bool
  | none => false
  | some s => s ≠ ""

/-- `Array.prototype.slice(s, e)` with JS index clamping (negative indices
count from the end). -/
def jsSlice (l : List α) (s e : Int) : List α :=
  let n : Int := Int.ofNat l.length
  let s' : Int := if s < 0 then max (n + s) 0 else min s n
  let e' : Int := if e < 0 then max (n + e) 0 else min e n
  (l.take e'.toNat).drop s'.toNat

/-- `Math.ceil(a / b)` for integers (`b ≠ 0` in all reachable uses). -/
def jsCeilDiv (a b : Int) : Int := -((-a).fdiv b)

/-- Stable comparator sort (JS `Array.prototype.sort(c)`, which is stable):
insertion sort placing each element before the first strictly-greater one. -/
def insertSorted (c : α → α → Int) (x : α) : List α → List α
  | [] => [x]
  | y :: ys => if c x y ≤ 0 then x :: y :: ys else y :: insertSorted c x ys

/-- Stable sort by a JS-style comparator. -/
def jsSortBy (c : α → α → Int) (l : List α) : List α :=
  l.foldr (insertSorted c) []

/-- JS object property assignment `m[k] = v` on an association list:
an existing key keeps its position and gets the new value; a new key is
appended (JS insertion-order semantics). -/
def upsertAssoc : List (String × String) → String → String → List (String × String)
  | [], k, v => [(k, v)]
  | (k', v') :: rest, k, v =>
    if k' = k then (k', v) :: rest else (k', v') :: upsertAssoc rest k v

/-- JS object property read `m[k]` on an association list. -/
def lookupAssoc : List (String × String) → String → Option String
  | [], _ => none
  | (k', v') :: rest, k => if k' = k then some v' else lookupAssoc rest k

/-! ### Path Matcher and Router Table (`ServerRouter`, main-server.js 7-61)

`addRoute` turns a pattern into `new RegExp("^" + path.replace(/:([^\/]+)/g,
"([^\/]+)") + "$")` plus the ordered parameter names.  We embed the compiled
regex as a token list: each plain pattern character is a literal token and
each `:name` group (a `:` followed by a maximal nonempty run of non-`/`
characters) is a parameter token matching `([^/]+)`.  This is faithful for
patterns containing no regex metacharacters, which covers every pattern the
program registers.  A `:` not followed by a non-`/` character is left as a
literal by the JS replace, hence also here. -/

inductive Tok where
  | lit (c : Char)
  | param (name : String)
deriving DecidableEq

/-- Compile a pattern character list into tokens.  `acc = some cs` means we
are inside a `:name` group whose name characters (reversed) are `cs`. -/
def compileAux (acc : Option (List Char)) : List Char → List Tok
  | [] =>
    match acc with
    | none => []
    | some a => if a.isEmpty then [Tok.lit ':'] else [Tok.param (String.mk a.reverse)]
  | c :: rest =>
    match acc with
    | none =>
      if c = ':' then compileAux (some []) rest
      else Tok.lit c :: compileAux none rest
    | some a =>
      if c = '/' then
        (if a.isEmpty then Tok.lit ':' else Tok.param (String.mk a.reverse)) ::
          Tok.lit '/' :: compileAux none rest
      else compileAux (some (c :: a)) rest

/-- The compiled matcher for a pattern string. -/
def compilePattern (path : String) : List Tok :=
  compileAux none path.toList

/-- The ordered parameter names the JS replace collects. -/
def paramNamesOf (toks : List Tok) : List String :=
  toks.filterMap (fun t => match t with | Tok.param n => some n | Tok.lit _ => none)

/-- Anchored matching of the compiled tokens against a path (the embedded
`pathname.match(route.regex)`): literals match exactly; a parameter matches a
maximal nonempty run of non-`/` characters (equivalent to greedy `([^/]+)` on
every token list `compileAux` produces, where a parameter is always followed
by a literal `/` or the end).  Returns the captured strings in order.
`mode = some acc` means a parameter run is being consumed, with the consumed
characters (reversed) in `acc`. -/
def matchAux (mode : Option (List Char)) (ts : List Tok) : List Char → Option (List String)
  | [] =>
    match mode with
    | none => if ts.isEmpty then some [] else none
    | some acc => if ts.isEmpty then some [String.mk acc.reverse] else none
  | x :: xs =>
    match mode with
    | none =>
      match ts with
      | [] => none
      | Tok.lit c :: ts' => if x = c then matchAux none ts' xs else none
      | Tok.param _ :: ts' => if x = '/' then none else matchAux (some [x]) ts' xs
    | some acc =>
      if x = '/' then
        match ts with
        | Tok.lit c :: ts' =>
          if c = '/' then (matchAux none ts' xs).map (String.mk acc.reverse :: ·)
          else none
        | _ => none
      else matchAux (some (x :: acc)) ts xs

/-- Match a compiled pattern against a whole path string. -/
def matchPattern (toks : List Tok) (path : String) : Option (List String) :=
  matchAux none toks path.toList

/-- A registered route entry (main-server.js 25-30). -/
structure Route where
  path : String
  toks : List Tok
  paramNames : List String
  handler : String
deriving DecidableEq

/-- `ServerRouter.addRoute` (main-server.js 17-31): compiles the pattern and
appends the entry.  The JS body can only throw from `new RegExp`, which never
throws for patterns free of regex metacharacters (a lone `:` is not special),
so within that domain registration is total. -/
def addRoute (routes : List Route) (path : String) (handler : String) : List Route :=
  routes ++ [{ path := path
               toks := compilePattern path
               paramNames := paramNamesOf (compilePattern path)
               handler := handler }]

/-- The result of `ServerRouter.findRoute` (main-server.js 51-55). -/
structure FoundRoute where
  handler : String
  params : List (String × String)
  path : String
deriving DecidableEq

/-- `ServerRouter.findRoute` (main-server.js 38-60): strip the query string,
try routes in registration order, and build the params object by positional
assignment of captures to parameter names. -/
def findRoute (routes : List Route) (url : String) : Option FoundRoute :=
  let pathname := String.mk ((splitOnChar '?' url.toList).headD [])
  routes.findSome? (fun r =>
    (matchPattern r.toks pathname).map (fun caps =>
      { handler := r.handler
        params := (r.paramNames.zip caps).foldl (fun m kv => upsertAssoc m kv.1 kv.2) []
        path := r.path }))

/-- The route table `render` sets up (main-server.js 663-666). -/
def serverRoutes : List Route :=
  addRoute (addRoute (addRoute [] "/" "home") "/product/:id/" "product") "/404" "notfound"

/-! ### URL parsing in `render` (main-server.js 628-637)

`render` does `const [pathname, queryString] = url.split("?")`: the path is
the piece before the first `?` and the query string is the piece between the
first and second `?` (anything after a second `?` is dropped by the
destructuring).  The query object is built by iterating `URLSearchParams` and
assigning `query[key] = value`, so the last occurrence of a duplicate key
wins.  The embedding of `URLSearchParams` keeps the text of keys and values
literally (no percent- or `+`-decoding), which is faithful for query strings
free of `%` and `+`. -/

/-- `url.split("?")[0]` — the pathname `render` and `findRoute` match on. -/
def pathnameOfUrl (url : String) : String :=
  String.mk ((splitOnChar '?' url.toList).headD [])

/-- `url.split("?")[1]` — the query string `render` parses (`none` models
`undefined` when the URL has no `?`). -/
def queryStringOfUrl (url : String) : Option String :=
  ((splitOnChar '?' url.toList).get? 1).map String.mk

/-- The key/value pairs `URLSearchParams` yields for a query string, in
order: split at `&`, drop empty segments, split each segment at its first
`=` (a segment without `=` gets value `""`). -/
def parseSearchParams (qs : List Char) : List (String × String) :=
  ((splitOnChar '&' qs).filter (fun seg => ¬seg.isEmpty)).map (fun seg =>
    (String.mk (seg.takeWhile (fun c => c ≠ '=')),
     String.mk ((seg.dropWhile (fun c => c ≠ '=')).drop 1)))

/-- The `query` object `render` builds (main-server.js 631-637): parses only
when `queryString` is truthy, assigning each pair in order (duplicate keys:
last occurrence wins). -/
def renderQuery (url : String) : List (String × String) :=
  match queryStringOfUrl url with
  | none => []
  | some qs =>
    if qs = "" then []
    else (parseSearchParams qs.toList).foldl (fun m kv => upsertAssoc m kv.1 kv.2) []

/-- The logical page `render`'s branching selects (main-server.js 676, 707,
737-743): the route with pattern `"/"` is the home page, the route with
pattern `"/product/:id/"` is the product-detail page, and everything else
(including the `"/404"` route and a failed match) renders the not-found
page. -/
inductive PageId where
  | home
  | productDetail
  | notFound
deriving DecidableEq

/-- The first matching route for a URL, through the server route table. -/
def routeOf (url : String) : Option FoundRoute :=
  findRoute serverRoutes (pathnameOfUrl url)

/-- `route?.path || "notfound"` (main-server.js 670). -/
def routePathOf (url : String) : String :=
  ((routeOf url).map (fun r => r.path)).getD "notfound"

/-- `route?.params || {}` (main-server.js 671). -/
def routeParamsOf (url : String) : List (String × String) :=
  ((routeOf url).map (fun r => r.params)).getD []

/-- The outcome of resolving a URL: logical page, route parameters, query
parameters. -/
structure RouteMatch where
  pageId : PageId
  params : List (String × String)
  queryParams : List (String × String)
deriving DecidableEq

/-- URL resolution as `render` performs it: split off the pathname, find the
first matching route, default to not-found, and parse the query parameters
from the original URL. -/
def resolve (url : String) : RouteMatch :=
  let routePath := routePathOf url
  { pageId :=
      if routePath = "/" then PageId.home
      else if routePath = "/product/:id/" then PageId.productDetail
      else PageId.notFound
    params := routeParamsOf url
    queryParams := renderQuery url }

/-! ### Data model

The dataset `items.json` is not part of the snapshot, so every definition
that reads it is parametric in the item list.  The sort comparator
`localeCompare(..., "ko")` is an environment/ICU function; it is taken as a
parameter `kcmp` wherever it is needed. -/

/-- A record of `items.json` as the code reads it (fields accessed in
main-server.js: `productId`, `title`, `brand`, `lprice`, `image`,
`category1`, `category2`; all strings). -/
structure Item where
  productId : String
  title : String
  brand : String
  lprice : String
  image : String
  category1 : String
  category2 : String
deriving DecidableEq

/-- The enriched product `mockGetProduct` returns (main-server.js 176-183):
the item's fields plus generated description, rating, review count, stock and
images. -/
structure FullProduct where
  productId : String
  title : String
  brand : String
  lprice : String
  image : String
  category1 : String
  category2 : String
  description : String
  rating : Nat
  reviewCount : Nat
  stock : Nat
  images : List String
deriving DecidableEq

/-- The nested category map `getUniqueCategories` builds: top-level category
names in insertion order, each with its second-level names in insertion
order (the `{cat1: {cat2: {}}}` object). -/
abbrev Categories := List (String × List String)

/-- `getUniqueCategories` (main-server.js 70-82): walk the items, creating a
slot for each unseen `category1` and, when `category2` is truthy, for each
unseen `category2` under it. -/
def getUniqueCategories (items : List Item) : Categories :=
  items.foldl (fun cats it =>
    let cats :=
      if (cats.lookup it.category1).isSome then cats else cats ++ [(it.category1, [])]
    if it.category2 ≠ "" then
      cats.map (fun e =>
        if e.1 = it.category1 ∧ ¬e.2.contains it.category2 then (e.1, e.2 ++ [it.category2])
        else e)
    else cats) []

/-- `filterProducts` (main-server.js 87-127): search filter on lowercased
title/brand, category filters, then the comparator sort chosen by `sort`
(nonempty `sort` only; the `default` arm sorts like `price_asc`).
`kcmp` stands for `localeCompare(·, "ko")`; lowercasing uses Lean's
ASCII-range `toLower`, which agrees with JS for the ASCII and Korean text
involved. -/
def filterProducts (kcmp : String → String → Int) (products : List Item)
    (search category1 category2 sort : String) : List Item :=
  let filtered := products
  let filtered :=
    if search ≠ "" then
      let searchTerm := search.toLower
      filtered.filter (fun it =>
        listIncludes searchTerm.toList it.title.toLower.toList ||
        listIncludes searchTerm.toList it.brand.toLower.toList)
    else filtered
  let filtered :=
    if category1 ≠ "" then filtered.filter (fun it => it.category1 = category1) else filtered
  let filtered :=
    if category2 ≠ "" then filtered.filter (fun it => it.category2 = category2) else filtered
  let priceOf : Item → Int := fun it => (jsParseInt (some it.lprice)).getD 0
  if sort ≠ "" then
    if sort = "price_asc" then jsSortBy (fun a b => priceOf a - priceOf b) filtered
    else if sort = "price_desc" then jsSortBy (fun a b => priceOf b - priceOf a) filtered
    else if sort = "name_asc" then jsSortBy (fun a b => kcmp a.title b.title) filtered
    else if sort = "name_desc" then jsSortBy (fun a b => kcmp b.title a.title) filtered
    else jsSortBy (fun a b => priceOf a - priceOf b) filtered
  else filtered

/-- The pagination record `mockGetProducts` returns (main-server.js 148-155). -/
structure Pagination where
  page : Int
  limit : Int
  total : Int
  totalPages : Int
  hasNext : Bool
  hasPrev : Bool
deriving DecidableEq

/-- The result of `mockGetProducts`. -/
structure ProductsData where
  products : List Item
  pagination : Pagination
deriving DecidableEq

/-- `mockGetProducts` (main-server.js 132-157): filter/sort, then paginate
with `slice(startIndex, endIndex)`. -/
def mockGetProducts (kcmp : String → String → Int) (items : List Item)
    (page limit : Int) (search category1 category2 sort : String) : ProductsData :=
  let filteredProducts := filterProducts kcmp items search category1 category2 sort
  let startIndex := (page - 1) * limit
  let endIndex := startIndex + limit
  let total : Int := Int.ofNat filteredProducts.length
  { products := jsSlice filteredProducts startIndex endIndex
    pagination :=
      { page := page
        limit := limit
        total := total
        totalPages := jsCeilDiv total limit
        hasNext := endIndex < total
        hasPrev := page > 1 } }

/-- `mockGetCategories` (main-server.js 162-164). -/
def mockGetCategories (items : List Item) : Categories :=
  getUniqueCategories items

/-- `mockGetProduct` (main-server.js 169-184): find the item whose
`productId` strictly equals the requested id (an `undefined` id — `none` —
matches nothing), then extend it with description, rating, review count,
stock and images; `none` models the JS `null` for an absent record. -/
def mockGetProduct (items : List Item) (productId : Option String) : Option FullProduct :=
  (items.find? (fun it => some it.productId = productId)).map (fun product =>
    { productId := product.productId
      title := product.title
      brand := product.brand
      lprice := product.lprice
      image := product.image
      category1 := product.category1
      category2 := product.category2
      description :=
        product.title ++ "에 대한 상세 설명입니다. " ++ product.brand ++
          " 브랜드의 우수한 품질을 자랑하는 상품으로, 고객 만족도가 높은 제품입니다."
      rating := 4
      reviewCount := 500
      stock := 50
      images := [product.image,
                 replaceFirst product.image ".jpg" "_2.jpg",
                 replaceFirst product.image ".jpg" "_3.jpg"] })

/-- `mockGetRelatedProducts` (main-server.js 189-194): same `category1`,
different `productId`, first `limit` entries; `[]` when the anchor product
does not exist. -/
def mockGetRelatedProducts (items : List Item) (productId : Option String)
    (limit : Nat) : List Item :=
  match items.find? (fun it => some it.productId = productId) with
  | none => []
  | some product =>
    (items.filter (fun it =>
      some it.productId ≠ productId ∧ it.category1 = product.category1)).take limit

/-! ### Store states and the server store (main-server.js 200-243, 640-660)

`createServerStore` holds a mutable `state` and a `dispatch` switching on
`action.type`; we embed `dispatch` as state passing.  The action-type
constants come from `stores/actionTypes.js`, which is not in the snapshot;
per the spec they form a fixed enumeration of distinct string tags, so the
embedding uses one constructor per tag plus a catch-all `other` for any tag
outside the enumeration.  Every dispatch in the program targets the product
store, so the dispatch function is typed at the product state. -/

/-- Product-store state, with the initial shape `render` constructs
(main-server.js 641-650).  `none` models JS `null`. -/
structure ProductState where
  products : List Item
  totalCount : Int
  currentProduct : Option FullProduct
  relatedProducts : List Item
  loading : Bool
  error : Option String
  status : String
  categories : Categories
deriving DecidableEq

/-- The fresh product-store state of each request (main-server.js 641-650). -/
def initialProductState : ProductState :=
  { products := []
    totalCount := 0
    currentProduct := none
    relatedProducts := []
    loading := false
    error := none
    status := "idle"
    categories := [] }

/-- A cart line item (only `items.length` and the pass-through to the
external `CartModal` matter to the server renderer). -/
structure CartItem where
  productId : String
  quantity : Nat
deriving DecidableEq

/-- Cart-store state (main-server.js 651-654). -/
structure CartState where
  items : List CartItem
  selectedAll : Bool
deriving DecidableEq

/-- The fresh cart-store state of each request. -/
def initialCartState : CartState :=
  { items := [], selectedAll := false }

/-- Toast state inside the UI store. -/
structure ToastState where
  isVisible : Bool
  message : String
  toastType : String
deriving DecidableEq

/-- UI-store state (main-server.js 655-659). -/
structure UiState where
  cartModalIsOpen : Bool
  globalLoading : Bool
  toast : ToastState
deriving DecidableEq

/-- The fresh UI-store state of each request. -/
def initialUiState : UiState :=
  { cartModalIsOpen := false
    globalLoading := false
    toast := { isVisible := false, message := "", toastType := "info" } }

/-- The payload of a `SETUP` action: a partial product state.  A field that
is `none` is absent from the payload object, so the object spread
`{ ...state, ...action.payload }` keeps the previous value; a present field
replaces it.  `currentProduct` and `error` are themselves nullable, hence
doubly optional. -/
structure SetupPayload where
  products : Option (List Item) := none
  totalCount : Option Int := none
  currentProduct : Option (Option FullProduct) := none
  relatedProducts : Option (List Item) := none
  loading : Option Bool := none
  error : Option (Option String) := none
  status : Option String := none
  categories : Option Categories := none
deriving DecidableEq

/-- Product-store actions.  One constructor per `PRODUCT_ACTIONS` tag the
server reducer's switch names, `setError` for the `SET_ERROR` tag `render`
dispatches (main-server.js 727-730), and `other` for any action tag outside
the enumeration. -/
inductive ProductAction where
  | setProducts (products : List Item) (totalCount : Int)
  | setCategories (categories : Categories)
  | setCurrentProduct (payload : Option FullProduct)
  | setRelatedProducts (payload : List Item)
  | setup (payload : SetupPayload)
  | setError (payload : String)
  | other (kind : String)
deriving DecidableEq

/-- Whether the server store's reducer switch (main-server.js 206-239) has a
case for the action's tag.  `SET_ERROR` has no case there. -/
def handledByServerReducer : ProductAction → Bool
  | ProductAction.setProducts _ _ => true
  | ProductAction.setCategories _ => true
  | ProductAction.setCurrentProduct _ => true
  | ProductAction.setRelatedProducts _ => true
  | ProductAction.setup _ => true
  | ProductAction.setError _ => false
  | ProductAction.other _ => false

/-- `createServerStore(...).dispatch` (main-server.js 205-240) as a state
transformer: the five handled tags update the state as in the switch; any
other tag (including `SET_ERROR`) falls through the switch and leaves the
state untouched, and dispatch never throws (the function is total). -/
def serverStoreDispatch (state : ProductState) : ProductAction → ProductState
  | ProductAction.setProducts products totalCount =>
    { state with products := products, totalCount := totalCount,
                 loading := false, error := none }
  | ProductAction.setCategories categories =>
    { state with categories := categories }
  | ProductAction.setCurrentProduct payload =>
    { state with currentProduct := payload, loading := false, error := none }
  | ProductAction.setRelatedProducts payload =>
    { state with relatedProducts := payload }
  | ProductAction.setup payload =>
    { products := payload.products.getD state.products
      totalCount := payload.totalCount.getD state.totalCount
      currentProduct := payload.currentProduct.getD state.currentProduct
      relatedProducts := payload.relatedProducts.getD state.relatedProducts
      loading := payload.loading.getD state.loading
      error := payload.error.getD state.error
      status := payload.status.getD state.status
      categories := payload.categories.getD state.categories }
  | ProductAction.setError _ => state
  | ProductAction.other _ => state

/-- The per-request store set `render` constructs (main-server.js 640-660). -/
structure Stores where
  productState : ProductState
  cartState : CartState
  uiState : UiState
deriving DecidableEq

/-- The fresh store set of each request, at default initial state. -/
def freshStores : Stores :=
  { productState := initialProductState
    cartState := initialCartState
    uiState := initialUiState }

/-- One dispatch step of a request: every dispatch in `render` targets the
request's product store. -/
def dispatchStep (a : ProductAction) : Stores → Stores :=
  fun st => { st with productState := serverStoreDispatch st.productState a }

/-! ### Server page rendering (main-server.js 255-617)

The markup functions build HTML strings from store snapshots; the HTML text
itself is an external templating concern (spec §6), so the embedding records
which branch was taken and exactly the data each template reads.  What
matters to the claims is which branch renders and whether rendering throws:
`ProductDetail` destructures `product`, which throws a `TypeError` when the
product is `null`. -/

/-- The JS exceptions the embedded renderer can raise. -/
inductive JsError where
  | nullDeref
deriving DecidableEq

/-- The page-specific content of the rendered markup, carrying the data the
corresponding template reads from the stores and query. -/
inductive PageContent where
  | home (searchQuery limitStr sortStr category1 category2 : String)
      (products : List Item) (loading : Bool) (error : Option String)
      (totalCount : Int) (categories : Categories) (hasMore : Bool)
  | detailLoading
  | detailError (message : String)
  | detail (product : FullProduct) (relatedProducts : List Item)
  | notFound
deriving DecidableEq

/-- A rendered page: the content plus what `ServerPageWrapper`
(main-server.js 255-296) reads from the cart and UI stores. -/
structure RenderedPage where
  content : PageContent
  cartItems : List CartItem
  selectedAll : Bool
  cartModalIsOpen : Bool
  toast : ToastState
deriving DecidableEq

/-- `ServerPageWrapper` around some content. -/
def serverPageWrapper (content : PageContent) (stores : Stores) : RenderedPage :=
  { content := content
    cartItems := stores.cartState.items
    selectedAll := stores.cartState.selectedAll
    cartModalIsOpen := stores.uiState.cartModalIsOpen
    toast := stores.uiState.toast }

/-- `renderHomePage` (main-server.js 301-331): destructures the query with
plain defaults (`undefined` → default, unlike `||`) and reads the product
store snapshot. -/
def renderHomePage (stores : Stores) (query : List (String × String)) : RenderedPage :=
  let productState := stores.productState
  serverPageWrapper
    (PageContent.home
      ((lookupAssoc query "search").getD "")
      ((lookupAssoc query "limit").getD "20")
      ((lookupAssoc query "sort").getD "")
      ((lookupAssoc query "category1").getD "")
      ((lookupAssoc query "category2").getD "")
      productState.products
      productState.loading
      productState.error
      productState.totalCount
      productState.categories
      (Int.ofNat productState.products.length < productState.totalCount))
    stores

/-- `renderProductDetailPage` (main-server.js 336-577): loading content when
`loading`; the error page when `error` is truthy and `product` is absent;
otherwise `ProductDetail`, which destructures the product and hence throws on
a `null` product. -/
def renderProductDetailPage (stores : Stores) : Except JsError RenderedPage :=
  let s := stores.productState
  if s.loading then Except.ok (serverPageWrapper PageContent.detailLoading stores)
  else if jsTruthyStr s.error ∧ s.currentProduct = none then
    Except.ok (serverPageWrapper
      (PageContent.detailError (jsOrStr s.error "요청하신 상품이 존재하지 않습니다.")) stores)
  else
    match s.currentProduct with
    | none => Except.error JsError.nullDeref
    | some product =>
      Except.ok (serverPageWrapper (PageContent.detail product s.relatedProducts) stores)

/-- `renderNotFoundPage` (main-server.js 582-617). -/
def renderNotFoundPage (stores : Stores) : RenderedPage :=
  serverPageWrapper PageContent.notFound stores

/-- The SEO head `render` emits (main-server.js 746-769), abstracted to the
branch taken and the product fields it reads. -/
inductive HeadMeta where
  | home
  | productFound (title brand lprice : String)
  | productMissing
  | notFound
deriving DecidableEq

/-! ### The main `render` function (main-server.js 628-772)

`render` parses the URL, constructs fresh stores, resolves the route,
prefetches data and dispatches it into the product store, renders markup from
the store snapshots, and returns markup, head, and the minimal `initialData`
payload.  The dispatch phase is kept as an explicit list of steps
(`renderSteps`) folded over the fresh stores, mirroring the sequence of
`stores.productStore.dispatch(...)` calls. -/

/-- The serialized hydration payload `render` returns (main-server.js 674,
702-706, 722-725): `{}` or the home listing fields or the detail fields. -/
inductive InitialData where
  | empty
  | homeData (products : List Item) (totalCount : Int) (categories : Categories)
  | detailData (currentProduct : FullProduct) (relatedProducts : List Item)
deriving DecidableEq

/-- The data-prefetch phase (main-server.js 673-732): the actions dispatched
into the product store, in order, together with the `initialData` payload. -/
def renderPrefetch (kcmp : String → String → Int) (items : List Item)
    (routePath : String) (params query : List (String × String)) :
    List ProductAction × InitialData :=
  if routePath = "/" then
    let limit := jsOrInt (jsParseInt (lookupAssoc query "limit")) 20
    let page := jsOrInt (jsParseInt (lookupAssoc query "page")) 1
    let productsData := mockGetProducts kcmp items page limit
      (jsOrStr (lookupAssoc query "search") "")
      (jsOrStr (lookupAssoc query "category1") "")
      (jsOrStr (lookupAssoc query "category2") "")
      (jsOrStr (lookupAssoc query "sort") "price_asc")
    let categories := mockGetCategories items
    ([ProductAction.setup
        { products := some productsData.products
          totalCount := some productsData.pagination.total
          categories := some categories
          loading := some false
          error := some none }],
     InitialData.homeData productsData.products productsData.pagination.total categories)
  else if routePath = "/product/:id/" then
    let product := mockGetProduct items (lookupAssoc params "id")
    let relatedProducts := mockGetRelatedProducts items (lookupAssoc params "id") 20
    match product with
    | some p =>
      ([ProductAction.setCurrentProduct (some p),
        ProductAction.setRelatedProducts relatedProducts],
       InitialData.detailData p relatedProducts)
    | none =>
      ([ProductAction.setError "상품을 찾을 수 없습니다."], InitialData.empty)
  else ([], InitialData.empty)

/-- The dispatch steps of a request, as store-set transformers. -/
def renderSteps (kcmp : String → String → Int) (items : List Item) (url : String) :
    List (Stores → Stores) :=
  ((renderPrefetch kcmp items (routePathOf url) (routeParamsOf url) (renderQuery url)).1).map
    dispatchStep

/-- Fold a list of store transformers over a store set, left to right. -/
def runAll (fs : List (σ → σ)) (s : σ) : σ :=
  fs.foldl (fun s f => f s) s

/-- The request's store set after the prefetch dispatches: a FRESH store set
at default initial state (never shared with any other request) transformed by
this request's own dispatches. -/
def renderStores (kcmp : String → String → Int) (items : List Item) (url : String) :
    Stores :=
  runAll (renderSteps kcmp items url) freshStores

/-- The full result `render` returns. -/
structure RenderOutput where
  html : RenderedPage
  head : HeadMeta
  initialData : InitialData
deriving DecidableEq

/-- The markup/head/payload phase of `render` (main-server.js 734-771),
reading a given store set. -/
def renderFromStores (kcmp : String → String → Int) (items : List Item) (url : String)
    (stores : Stores) : Except JsError RenderOutput :=
  let routePath := routePathOf url
  let initialData :=
    (renderPrefetch kcmp items routePath (routeParamsOf url) (renderQuery url)).2
  (if routePath = "/" then Except.ok (renderHomePage stores (renderQuery url))
   else if routePath = "/product/:id/" then renderProductDetailPage stores
   else Except.ok (renderNotFoundPage stores)).map (fun html =>
    { html := html
      head :=
        if routePath = "/" then HeadMeta.home
        else if routePath = "/product/:id/" then
          match stores.productState.currentProduct with
          | some product => HeadMeta.productFound product.title product.brand product.lprice
          | none => HeadMeta.productMissing
        else HeadMeta.notFound
      initialData := initialData })

/-- `render` (main-server.js 628-772): per-request fresh stores, route
resolution, prefetch dispatches, then markup/head/payload from the resulting
snapshots.  An uncaught JS exception (the `TypeError` from destructuring a
`null` product) surfaces as `Except.error`. -/
def render (kcmp : String → String → Int) (items : List Item) (url : String) :
    Except JsError RenderOutput :=
  renderFromStores kcmp items url (renderStores kcmp items url)

/-! ### Client hydration bridge (`hydrateInitialData`, src/unnamed/part_000 22-60)

The bridge reads `window.__INITIAL_DATA__`, dispatches its fields into the
client product store, then deletes the slot.  The client domain stores live
in `stores/` which is not in the snapshot; their product reducer is modelled
from the spec below.  The window payload is the JSON object the server
attached; a field that is absent is `none`. -/

/-- Modelled from the spec: the client product store's reducer
(`stores/productStore.js` is not under `src/`).  Per §3, §4.3 and §8 the
client product state has the same shape as the server's and the reducer maps
each defined action kind to a new state; the spec's §7(b) says a data-query
failure is recorded into the store's `error` field via the dedicated error
action (the clear-vs-keep choice for `currentProduct` is left open by the
spec's design notes, so the modelled case only records the error); an
unrecognized kind is a no-op.  The five kinds also handled by the server
store behave as in `createServerStore` (main-server.js 206-239). -/
def clientProductReduce (state : ProductState) : ProductAction → ProductState
  | ProductAction.setError payload => { state with error := some payload }
  | a => serverStoreDispatch state a

/-- The serialized hydration payload as the client reads it from the window
slot (`data.products`, `data.totalCount`, `data.categories`,
`data.currentProduct`, `data.relatedProducts`); `none` models an absent
field. -/
structure HydrationData where
  products : Option (List Item) := none
  totalCount : Option Int := none
  categories : Option Categories := none
  currentProduct : Option FullProduct := none
  relatedProducts : Option (List Item) := none
deriving DecidableEq

/-- The client-side world the bridge touches: the long-lived domain stores
and the one-shot `window.__INITIAL_DATA__` slot (`none` = absent/deleted). -/
structure ClientWorld where
  productState : ProductState
  cartState : CartState
  uiState : UiState
  initialDataSlot : Option HydrationData
deriving DecidableEq

/-- `hydrateInitialData` (src/unnamed/part_000 22-60): if the slot holds a
payload, dispatch a `SETUP` with the home-page fields when `products` is
present (an empty array is truthy in JS, so presence is what is tested),
dispatch `SET_CURRENT_PRODUCT` (and `SET_RELATED_PRODUCTS` when present) when
`currentProduct` is present, then delete the slot; if the slot is empty the
call is a no-op.  Only the product store is touched.  The `SETUP` payload is
built with `totalCount: data.totalCount`, which for the payloads this server
produces is always present alongside `products`. -/
def hydrateInitialData (w : ClientWorld) : ClientWorld :=
  match w.initialDataSlot with
  | none => w
  | some data =>
    let s0 := w.productState
    let s1 :=
      match data.products with
      | some products =>
        clientProductReduce s0 (ProductAction.setup
          { products := some products
            totalCount := data.totalCount
            categories := some (data.categories.getD [])
            loading := some false
            error := some none })
      | none => s0
    let s2 :=
      match data.currentProduct with
      | some currentProduct =>
        let t := clientProductReduce s1 (ProductAction.setCurrentProduct (some currentProduct))
        match data.relatedProducts with
        | some relatedProducts =>
          clientProductReduce t (ProductAction.setRelatedProducts relatedProducts)
        | none => t
      | none => s1
    { w with productState := s2, initialDataSlot := none }

/-! ### Auxiliary definitions for the verification statements -/

deriving instance DecidableEq for Except

/-- The last element of a list, if any. -/
def lastElem? : List α → Option α
  | [] => none
  | [x] => some x
  | _ :: x :: xs => lastElem? (x :: xs)

/-- Lifting a transformer to the first component of a pair (one request's
store set inside a two-request world). -/
def onFst (f : σ → σ) : σ × σ → σ × σ := fun p => (f p.1, p.2)

/-- Lifting a transformer to the second component of a pair. -/
def onSnd (g : σ → σ) : σ × σ → σ × σ := fun p => (p.1, g p.2)

/-- `Interleave us vs ws`: `ws` is an arbitrary interleaving of the two
step sequences `us` and `vs`, preserving the relative order within each
(how a host may schedule two concurrent requests). -/
inductive Interleave : List α → List α → List α → Prop where
  | nil : Interleave [] [] []
  | left {x : α} {xs ys zs : List α} :
      Interleave xs ys zs → Interleave (x :: xs) ys (x :: zs)
  | right {y : α} {xs ys zs : List α} :
      Interleave xs ys zs → Interleave xs (y :: ys) (y :: zs)

/-- A degenerate comparator standing in for `localeCompare(·, "ko")` in
concrete instantiations (the claims hold for every comparator). -/
def kc0 : String → String → Int := fun _ _ => 0

/-- A concrete dataset item used in concrete instantiations. -/
def sampleItem : Item :=
  { productId := "2"
    title := "T"
    brand := "B"
    lprice := "1000"
    image := "a.jpg"
    category1 := "c1"
    category2 := "c2" }

/-- Modelled from the spec's words, for refinement comparison only (§4.2
"split `url` into path and query at the first `?`; discard any trailing
fragment; parse the query string into a mapping (duplicate keys: last
occurrence wins)"): everything after the FIRST `?` is the query, minus a
trailing `#...` fragment. -/
def specQueryOfUrl (url : String) : List (String × String) :=
  let afterQ := (url.toList.dropWhile (fun c => c ≠ '?')).drop 1
  let noFrag := afterQ.takeWhile (fun c => c ≠ '#')
  (parseSearchParams noFrag).foldl (fun m kv => upsertAssoc m kv.1 kv.2) []

/-- A concrete home-page hydration payload (products/totalCount/categories
present, no current product). -/
def homePayloadSample : HydrationData :=
  { products := some [sampleItem]
    totalCount := some 1
    categories := some [("c1", ["c2"])] }

/-- A concrete client world holding `homePayloadSample` in the window slot,
with nontrivial current/related products in the store. -/
def clientWorldSample : ClientWorld :=
  { productState :=
      { initialProductState with
          currentProduct := mockGetProduct [sampleItem] (some "2")
          relatedProducts := [sampleItem] }
    cartState := { items := [{ productId := "2", quantity := 3 }], selectedAll := true }
    uiState := initialUiState
    initialDataSlot := some homePayloadSample }

/-! ### Shared lemmas -/

theorem runAll_nil (s : σ) : runAll ([] : List (σ → σ)) s = s := rfl

theorem runAll_cons (f : σ → σ) (fs : List (σ → σ)) (s : σ) :
    runAll (f :: fs) s = runAll fs (f s) := rfl

theorem interleave_append (us vs : List α) : Interleave us vs (us ++ vs) := by
  induction us with
  | nil =>
    induction vs with
    | nil => exact Interleave.nil
    | cons v vs ih => exact Interleave.right ih
  | cons u us ih => exact Interleave.left ih

theorem runAll_interleave {σ : Type} {us vs ws : List (σ × σ → σ × σ)}
    (h : Interleave us vs ws) :
    ∀ (fs gs : List (σ → σ)) (a b : σ),
      us = fs.map onFst → vs = gs.map onSnd →
      runAll ws (a, b) = (runAll fs a, runAll gs b) := by
  induction h with
  | nil =>
    intro fs gs a b hf hg
    rw [List.nil_eq, List.map_eq_nil_iff] at hf hg
    subst hf; subst hg
    rfl
  | @left x xs ys zs _ ih =>
    intro fs gs a b hf hg
    cases fs with
    | nil => simp at hf
    | cons f fs' =>
      rw [List.map_cons] at hf
      obtain ⟨hx, hxs⟩ := List.cons.injEq .. ▸ hf
      subst hx
      rw [runAll_cons, runAll_cons]
      have : onFst f (a, b) = (f a, b) := rfl
      rw [this]
      exact ih fs' gs (f a) b hxs hg
  | @right y xs ys zs _ ih =>
    intro fs gs a b hf hg
    cases gs with
    | nil => simp at hg
    | cons g gs' =>
      rw [List.map_cons] at hg
      obtain ⟨hy, hys⟩ := List.cons.injEq .. ▸ hg
      subst hy
      rw [runAll_cons, runAll_cons]
      have : onSnd g (a, b) = (a, g b) := rfl
      rw [this]
      exact ih fs gs' a (g b) hf hys

theorem lookupAssoc_upsert (m : List (String × String)) (k' v k : String) :
    lookupAssoc (upsertAssoc m k' v) k =
      if k' = k then some v else lookupAssoc m k := by
  induction m with
  | nil => rfl
  | cons kv rest ih =>
    obtain ⟨a, b⟩ := kv
    by_cases hak : a = k'
    · subst hak
      simp only [upsertAssoc, if_pos rfl, lookupAssoc]
      by_cases h : a = k
      · simp [h]
      · simp [h]
    · simp only [upsertAssoc, if_neg hak, lookupAssoc]
      by_cases h : a = k
      · subst h
        have : k' ≠ a := fun he => hak he.symm
        simp [this]
      · simp [h, ih]

theorem lookupAssoc_foldl_upsert (ps : List (String × String))
    (m : List (String × String)) (k : String) :
    lookupAssoc (ps.foldl (fun m kv => upsertAssoc m kv.1 kv.2) m) k =
      ps.foldl (fun acc kv => if kv.1 = k then some kv.2 else acc) (lookupAssoc m k) := by
  induction ps generalizing m with
  | nil => rfl
  | cons kv ps ih =>
    rw [List.foldl_cons, List.foldl_cons, ih, lookupAssoc_upsert]

theorem splitOnChar_ne_nil (sep : Char) (l : List Char) : splitOnChar sep l ≠ [] := by
  cases l with
  | nil => simp [splitOnChar]
  | cons c cs =>
    unfold splitOnChar
    cases splitOnChar sep cs with
    | nil => simp
    | cons h t =>
      by_cases hc : c = sep
      · simp [hc]
      · simp [hc]

theorem splitOnChar_head (sep : Char) (l : List Char) :
    (splitOnChar sep l).headD [] = l.takeWhile (fun c => c ≠ sep) := by
  induction l with
  | nil => rfl
  | cons c cs ih =>
    rcases hs : splitOnChar sep cs with _ | ⟨h, t⟩
    · exact absurd hs (splitOnChar_ne_nil sep cs)
    · by_cases hc : c = sep
      · subst hc
        simp [splitOnChar, hs, List.takeWhile]
      · rw [hs] at ih
        simp only [splitOnChar, hs, if_neg hc, List.headD, List.takeWhile]
        simp only [List.headD] at ih
        simp [hc, ih]

theorem splitOnChar_second (sep : Char) (l : List Char) :
    (splitOnChar sep l)[1]? =
      if l.contains sep then
        some (((l.dropWhile (fun c => c ≠ sep)).drop 1).takeWhile (fun c => c ≠ sep))
      else none := by
  induction l with
  | nil => rfl
  | cons c cs ih =>
    rcases hs : splitOnChar sep cs with _ | ⟨h, t⟩
    · exact absurd hs (splitOnChar_ne_nil sep cs)
    · by_cases hc : c = sep
      · subst hc
        have hh : h = cs.takeWhile (fun x => x ≠ c) := by
          have hhead := splitOnChar_head c cs
          rw [hs] at hhead
          simpa using hhead
        simp [splitOnChar, hs, List.contains_cons, List.dropWhile, hh]
      · have hsc : (sep == c) = false :=
          beq_eq_false_iff_ne.mpr (fun he => hc he.symm)
        have hcontains : (c :: cs).contains sep = cs.contains sep := by
          rw [List.contains_cons, hsc, Bool.false_or]
        have hdrop : (c :: cs).dropWhile (fun x => x ≠ sep) =
            cs.dropWhile (fun x => x ≠ sep) := by
          rw [List.dropWhile]
          simp [hc]
        rw [hs] at ih
        simp only [splitOnChar, hs, if_neg hc, hcontains, hdrop]
        simpa using ih

theorem lastElem?_cons_of_ne_nil (x : α) (l : List α) (h : l ≠ []) :
    lastElem? (x :: l) = lastElem? l := by
  cases l with
  | nil => exact absurd rfl h
  | cons y ys => rfl

theorem endsWithChar_cons (c x : Char) (xs : List Char)
    (h : endsWithChar c xs = true) : endsWithChar c (x :: xs) = true := by
  cases xs with
  | nil => simp [endsWithChar] at h
  | cons y ys => simpa [endsWithChar] using h

theorem compileAux_ne_nil (l : List Char) :
    ∀ acc : Option (List Char), l ≠ [] ∨ acc.isSome = true → compileAux acc l ≠ [] := by
  induction l with
  | nil =>
    intro acc h
    rcases h with h | h
    · exact absurd rfl h
    · rcases acc with _ | a
      · simp at h
      · by_cases ha : a.isEmpty <;> simp [compileAux, ha]
  | cons c rest ih =>
    intro acc h
    rcases acc with _ | a
    · by_cases hc : c = ':'
      · simp only [compileAux, if_pos hc]
        exact ih (some []) (Or.inr rfl)
      · simp [compileAux, hc]
    · by_cases hc : c = '/'
      · simp [compileAux, hc]
      · simp only [compileAux, if_neg hc]
        exact ih (some (c :: a)) (Or.inr rfl)

theorem compileAux_none_cons (c : Char) (rest : List Char) :
    compileAux none (c :: rest) =
      if c = ':' then compileAux (some []) rest
      else Tok.lit c :: compileAux none rest := rfl

theorem compileAux_some_cons (a : List Char) (c : Char) (rest : List Char) :
    compileAux (some a) (c :: rest) =
      if c = '/' then
        (if a.isEmpty then Tok.lit ':' else Tok.param (String.mk a.reverse)) ::
          Tok.lit '/' :: compileAux none rest
      else compileAux (some (c :: a)) rest := rfl

theorem matchAux_none_lit_cons (c : Char) (ts' : List Tok) (x : Char) (xs : List Char) :
    matchAux none (Tok.lit c :: ts') (x :: xs) =
      if x = c then matchAux none ts' xs else none := rfl

theorem matchAux_none_param_cons (n : String) (ts' : List Tok) (x : Char) (xs : List Char) :
    matchAux none (Tok.param n :: ts') (x :: xs) =
      if x = '/' then none else matchAux (some [x]) ts' xs := rfl

theorem matchAux_some_nil_cons (acc : List Char) (x : Char) (xs : List Char) :
    matchAux (some acc) [] (x :: xs) =
      if x = '/' then none else matchAux (some (x :: acc)) [] xs := rfl

theorem matchAux_some_lit_cons (acc : List Char) (c : Char) (ts' : List Tok)
    (x : Char) (xs : List Char) :
    matchAux (some acc) (Tok.lit c :: ts') (x :: xs) =
      if x = '/' then
        (if c = '/' then (matchAux none ts' xs).map (String.mk acc.reverse :: ·)
         else none)
      else matchAux (some (x :: acc)) (Tok.lit c :: ts') xs := rfl

theorem matchAux_some_param_cons (acc : List Char) (n : String) (ts' : List Tok)
    (x : Char) (xs : List Char) :
    matchAux (some acc) (Tok.param n :: ts') (x :: xs) =
      if x = '/' then none
      else matchAux (some (x :: acc)) (Tok.param n :: ts') xs := rfl

theorem compileAux_last_slash (l : List Char) :
    ∀ acc : Option (List Char), endsWithChar '/' l = true →
      lastElem? (compileAux acc l) = some (Tok.lit '/') := by
  induction l with
  | nil =>
    intro acc h
    simp [endsWithChar] at h
  | cons c rest ih =>
    intro acc h
    cases rest with
    | nil =>
      have hc : c = '/' := by simpa [endsWithChar] using h
      subst hc
      rcases acc with _ | a
      · simp [compileAux, lastElem?]
      · by_cases ha : a.isEmpty <;> simp [compileAux, ha, lastElem?]
    | cons d rest' =>
      have h' : endsWithChar '/' (d :: rest') = true := by
        simpa [endsWithChar] using h
      have hne : compileAux none (d :: rest') ≠ [] :=
        compileAux_ne_nil (d :: rest') none (Or.inl (by simp))
      rcases acc with _ | a
      · by_cases hc : c = ':'
        · rw [compileAux_none_cons, if_pos hc]
          exact ih (some []) h'
        · rw [compileAux_none_cons, if_neg hc,
              lastElem?_cons_of_ne_nil _ _ hne]
          exact ih none h'
      · by_cases hc : c = '/'
        · rw [compileAux_some_cons, if_pos hc,
              lastElem?_cons_of_ne_nil _ _ (List.cons_ne_nil _ _),
              lastElem?_cons_of_ne_nil _ _ hne]
          exact ih none h'
        · rw [compileAux_some_cons, if_neg hc]
          exact ih (some (c :: a)) h'

theorem matchAux_last_slash (cs : List Char) :
    ∀ (mode : Option (List Char)) (ts : List Tok) (caps : List String),
      lastElem? ts = some (Tok.lit '/') →
      matchAux mode ts cs = some caps →
      endsWithChar '/' cs = true := by
  induction cs with
  | nil =>
    intro mode ts caps hts h
    have hemp : ts ≠ [] := by
      intro he
      subst he
      simp [lastElem?] at hts
    rcases mode with _ | acc <;> simp [matchAux, List.isEmpty_iff, hemp] at h
  | cons x xs ih =>
    intro mode ts caps hts h
    rcases mode with _ | acc
    · rcases ts with _ | ⟨t, ts'⟩
      · simp [lastElem?] at hts
      · rcases t with ⟨c⟩ | ⟨n⟩
        · by_cases hxc : x = c
          · rw [matchAux_none_lit_cons, if_pos hxc] at h
            rcases ts' with _ | ⟨t2, ts''⟩
            · have hc : c = '/' := by simpa [lastElem?] using hts
              cases xs with
              | nil =>
                subst hxc
                simp [endsWithChar, hc]
              | cons y ys => simp [matchAux] at h
            · have hts' : lastElem? (t2 :: ts'') = some (Tok.lit '/') := by
                simpa [lastElem?] using hts
              exact endsWithChar_cons _ x _ (ih none (t2 :: ts'') caps hts' h)
          · rw [matchAux_none_lit_cons, if_neg hxc] at h
            exact absurd h (by simp)
        · by_cases hx : x = '/'
          · rw [matchAux_none_param_cons, if_pos hx] at h
            exact absurd h (by simp)
          · rw [matchAux_none_param_cons, if_neg hx] at h
            rcases ts' with _ | ⟨t2, ts''⟩
            · simp [lastElem?] at hts
            · have hts' : lastElem? (t2 :: ts'') = some (Tok.lit '/') := by
                simpa [lastElem?] using hts
              exact endsWithChar_cons _ x _ (ih (some [x]) _ caps hts' h)
    · rcases ts with _ | ⟨t, ts'⟩
      · simp [lastElem?] at hts
      · rcases t with ⟨c⟩ | ⟨n⟩
        · by_cases hx : x = '/'
          · rw [matchAux_some_lit_cons, if_pos hx] at h
            by_cases hc : c = '/'
            · rw [if_pos hc] at h
              obtain ⟨caps', hcaps', -⟩ := Option.map_eq_some'.mp h
              rcases ts' with _ | ⟨t2, ts''⟩
              · cases xs with
                | nil => simp [endsWithChar, hx]
                | cons y ys => simp [matchAux] at hcaps'
              · have hts' : lastElem? (t2 :: ts'') = some (Tok.lit '/') := by
                  simpa [lastElem?] using hts
                exact endsWithChar_cons _ _ _ (ih none (t2 :: ts'') caps' hts' hcaps')
            · rw [if_neg hc] at h
              exact absurd h (by simp)
          · rw [matchAux_some_lit_cons, if_neg hx] at h
            exact endsWithChar_cons _ x _ (ih (some (x :: acc)) _ caps hts h)
        · by_cases hx : x = '/'
          · rw [matchAux_some_param_cons, if_pos hx] at h
            exact absurd h (by simp)
          · rw [matchAux_some_param_cons, if_neg hx] at h
            exact endsWithChar_cons _ x _ (ih (some (x :: acc)) _ caps hts h)

/-! ### Claim theorems -/

/-- C1: Calling the hydration bridge (`hydrateInitialData`) twice with the
same window payload yields the same final product-store state as calling it
once: the first call dispatches the payload's fields into the product store
and deletes the payload slot (so the slot is empty afterwards), and the
second call observes the payload as absent and is a no-op — the whole client
world after two calls equals the world after one. -/
theorem hydrate_idempotent (w : ClientWorld) :
    (hydrateInitialData w).initialDataSlot = none ∧
    hydrateInitialData (hydrateInitialData w) = hydrateInitialData w := by
  have hnoop : ∀ v : ClientWorld, v.initialDataSlot = none → hydrateInitialData v = v := by
    intro v hv
    unfold hydrateInitialData
    rw [hv]
  have hclear : (hydrateInitialData w).initialDataSlot = none := by
    unfold hydrateInitialData
    rcases hs : w.initialDataSlot with _ | data
    · exact hs
    · rfl
  exact ⟨hclear, hnoop _ hclear⟩

/-- C3: Resolving `"/product/42/?ref=home"` yields the product-detail page
with route parameters `{id: "42"}` (the `"/product/:id/"` pattern binds the
captured segment to the parameter name) and query parameters
`{ref: "home"}`. -/
theorem resolve_product_detail_example :
    resolve "/product/42/?ref=home" =
      { pageId := PageId.productDetail
        params := [("id", "42")]
        queryParams := [("ref", "home")] } := by decide

/-- C5: For every product-store state `s` and every action whose kind is not
one of the kinds handled by the server store's reducer (`SET_PRODUCTS`,
`SET_CATEGORIES`, `SET_CURRENT_PRODUCT`, `SET_RELATED_PRODUCTS`, `SETUP`),
dispatch leaves the state unchanged — equal by value to `s`; the dispatch
function is total, so it never throws. -/
theorem unknown_action_noop (s : ProductState) (a : ProductAction)
    (h : handledByServerReducer a = false) :
    serverStoreDispatch s a = s := by
  cases a <;> simp [handledByServerReducer] at h <;> rfl

/-- Witness for C5 at the concrete unrecognized action kind
`"UNKNOWN_ACTION"` and the initial product state. -/
theorem unknown_action_noop_witness :
    handledByServerReducer (ProductAction.other "UNKNOWN_ACTION") = false ∧
    serverStoreDispatch initialProductState (ProductAction.other "UNKNOWN_ACTION") =
      initialProductState :=
  ⟨rfl, unknown_action_noop initialProductState (ProductAction.other "UNKNOWN_ACTION") rfl⟩

/-- C6 (code bug): rendering `"/product/1/"` against a dataset that has no
product with id `"1"` does NOT record the failure in the product store's
`error` field — the `SET_ERROR` dispatch falls through the server reducer's
switch, which has no `SET_ERROR` case, so `error` stays `null` — and the
render then throws (the `TypeError` from destructuring the `null`
`currentProduct` in `ProductDetail`) instead of producing an error/empty
page. -/
theorem missing_product_render_throws :
    render kc0 [sampleItem] "/product/1/" = Except.error JsError.nullDeref ∧
    (renderStores kc0 [sampleItem] "/product/1/").productState.error = none ∧
    (renderStores kc0 [sampleItem] "/product/1/").productState.currentProduct = none := by
  refine ⟨by decide, by decide, by decide⟩

/-- C4: For every URL whose path matches none of the registered patterns
(`"/"`, `"/product/:id/"`, `"/404"`), resolution produces the not-found page
with empty route parameters while the query parameters are still parsed from
the original URL, and `render` handles this as a normal outcome — it returns
the not-found page (over the untouched fresh stores) with an empty
`initialData`, never an error. -/
theorem unmatched_url_notfound (kcmp : String → String → Int) (items : List Item)
    (url : String) (h : routeOf url = none) :
    resolve url =
      { pageId := PageId.notFound, params := [], queryParams := renderQuery url } ∧
    render kcmp items url =
      Except.ok
        { html := renderNotFoundPage freshStores
          head := HeadMeta.notFound
          initialData := InitialData.empty } := by
  have hpath : routePathOf url = "notfound" := by
    rw [routePathOf, h]
    rfl
  have hparams : routeParamsOf url = [] := by
    rw [routeParamsOf, h]
    rfl
  constructor
  · rw [resolve, hpath, hparams]
    simp
  · rw [render, renderFromStores, renderStores, renderSteps, hpath, hparams,
        renderPrefetch]
    simp [runAll, Except.map]

/-- Witness for C4 at the concrete unmatched URL `"/unknown"`. -/
theorem unmatched_url_notfound_witness :
    routeOf "/unknown" = none ∧
    (resolve "/unknown" =
       { pageId := PageId.notFound, params := [], queryParams := renderQuery "/unknown" } ∧
     render kc0 [sampleItem] "/unknown" =
       Except.ok
         { html := renderNotFoundPage freshStores
           head := HeadMeta.notFound
           initialData := InitialData.empty }) :=
  ⟨by decide, unmatched_url_notfound kc0 [sampleItem] "/unknown" (by decide)⟩

/-- C7: For every pattern ending in the separator `"/"`, a successful match
of its compiled form forces the path to end in `"/"` as well; concretely,
`"/product/42/"` matches the detail pattern `"/product/:id/"`, while
`"/product/42"` (no trailing separator) matches no registered pattern and
resolves to the not-found page. -/
theorem trailing_separator_significant :
    (∀ (pat path : String) (caps : List String),
       endsWithChar '/' pat.toList = true →
       matchPattern (compilePattern pat) path = some caps →
       endsWithChar '/' path.toList = true) ∧
    (findRoute serverRoutes "/product/42/").map (fun r => r.path) =
      some "/product/:id/" ∧
    findRoute serverRoutes "/product/42" = none ∧
    (resolve "/product/42").pageId = PageId.notFound := by
  refine ⟨?_, by decide, by decide, by decide⟩
  intro pat path caps hp hm
  exact matchAux_last_slash path.toList none (compilePattern pat) caps
    (compileAux_last_slash pat.toList none hp) hm

/-- Witness for C7's universally quantified part at the registered detail
pattern and the path `"/product/42/"`. -/
theorem trailing_separator_significant_witness :
    endsWithChar '/' "/product/:id/".toList = true ∧
    matchPattern (compilePattern "/product/:id/") "/product/42/" = some ["42"] ∧
    endsWithChar '/' "/product/42/".toList = true :=
  ⟨by decide, by decide,
   trailing_separator_significant.1 "/product/:id/" "/product/42/" ["42"]
     (by decide) (by decide)⟩

/-- C10: Dispatching a `SETUP` action performs a shallow merge — each field
present in the payload takes the payload's value and each field absent from
the payload keeps its previous value — and consequently hydrating a
home-page payload (one without `currentProduct`) leaves `currentProduct`,
`relatedProducts`, and the cart and UI stores untouched. -/
theorem setup_shallow_merge :
    (∀ (s : ProductState) (p : SetupPayload),
       serverStoreDispatch s (ProductAction.setup p) =
         { products := p.products.getD s.products
           totalCount := p.totalCount.getD s.totalCount
           currentProduct := p.currentProduct.getD s.currentProduct
           relatedProducts := p.relatedProducts.getD s.relatedProducts
           loading := p.loading.getD s.loading
           error := p.error.getD s.error
           status := p.status.getD s.status
           categories := p.categories.getD s.categories }) ∧
    (∀ (w : ClientWorld) (data : HydrationData),
       w.initialDataSlot = some data →
       data.products.isSome = true →
       data.currentProduct = none →
       (hydrateInitialData w).productState.currentProduct =
           w.productState.currentProduct ∧
       (hydrateInitialData w).productState.relatedProducts =
           w.productState.relatedProducts ∧
       (hydrateInitialData w).cartState = w.cartState ∧
       (hydrateInitialData w).uiState = w.uiState) := by
  constructor
  · intro s p
    rfl
  · intro w data hslot hprod hcp
    rcases hp : data.products with _ | products
    · rw [hp] at hprod
      simp at hprod
    · unfold hydrateInitialData
      rw [hslot]
      simp [hp, hcp, clientProductReduce, serverStoreDispatch]

/-- Witness for C10's hydration part at a concrete client world holding a
concrete home-page payload. -/
theorem setup_shallow_merge_witness :
    clientWorldSample.initialDataSlot = some homePayloadSample ∧
    homePayloadSample.products.isSome = true ∧
    homePayloadSample.currentProduct = none ∧
    ((hydrateInitialData clientWorldSample).productState.currentProduct =
       clientWorldSample.productState.currentProduct ∧
     (hydrateInitialData clientWorldSample).productState.relatedProducts =
       clientWorldSample.productState.relatedProducts ∧
     (hydrateInitialData clientWorldSample).cartState = clientWorldSample.cartState ∧
     (hydrateInitialData clientWorldSample).uiState = clientWorldSample.uiState) :=
  ⟨rfl, rfl, rfl,
   setup_shallow_merge.2 clientWorldSample homePayloadSample rfl rfl rfl⟩

/-- C2: two server renders, even when their dispatch steps are interleaved by
the host, never observe each other's store mutations: each render's store set
is constructed fresh per call, so for every interleaving `ws` of the two
renders' step sequences, the pair of final store sets equals the pair
produced by the two renders run in isolation, and each call's result is
exactly its isolated result. -/
theorem render_isolation (kcmp : String → String → Int) (items : List Item)
    (u1 u2 : String) (ws : List (Stores × Stores → Stores × Stores))
    (h : Interleave ((renderSteps kcmp items u1).map onFst)
                    ((renderSteps kcmp items u2).map onSnd) ws) :
    runAll ws (freshStores, freshStores) =
      (renderStores kcmp items u1, renderStores kcmp items u2) ∧
    renderFromStores kcmp items u1 (runAll ws (freshStores, freshStores)).1 =
      render kcmp items u1 ∧
    renderFromStores kcmp items u2 (runAll ws (freshStores, freshStores)).2 =
      render kcmp items u2 := by
  have h1 := runAll_interleave h (renderSteps kcmp items u1) (renderSteps kcmp items u2)
    freshStores freshStores rfl rfl
  refine ⟨h1, ?_, ?_⟩ <;> rw [h1] <;> rfl

/-- Witness for C2: a concrete interleaving (all steps of the home render,
then all steps of a product render) over a concrete dataset. -/
theorem render_isolation_witness :
    Interleave ((renderSteps kc0 [sampleItem] "/").map onFst)
               ((renderSteps kc0 [sampleItem] "/product/2/").map onSnd)
               (((renderSteps kc0 [sampleItem] "/").map onFst) ++
                ((renderSteps kc0 [sampleItem] "/product/2/").map onSnd)) ∧
    (runAll (((renderSteps kc0 [sampleItem] "/").map onFst) ++
             ((renderSteps kc0 [sampleItem] "/product/2/").map onSnd))
        (freshStores, freshStores) =
      (renderStores kc0 [sampleItem] "/", renderStores kc0 [sampleItem] "/product/2/") ∧
     renderFromStores kc0 [sampleItem] "/"
        (runAll (((renderSteps kc0 [sampleItem] "/").map onFst) ++
                 ((renderSteps kc0 [sampleItem] "/product/2/").map onSnd))
           (freshStores, freshStores)).1 =
       render kc0 [sampleItem] "/" ∧
     renderFromStores kc0 [sampleItem] "/product/2/"
        (runAll (((renderSteps kc0 [sampleItem] "/").map onFst) ++
                 ((renderSteps kc0 [sampleItem] "/product/2/").map onSnd))
           (freshStores, freshStores)).2 =
       render kc0 [sampleItem] "/product/2/") :=
  ⟨interleave_append _ _,
   render_isolation kc0 [sampleItem] "/" "/product/2/" _ (interleave_append _ _)⟩

/-- C8 counterexample: resolution does NOT discard a trailing fragment — for
the URL `"/?a=1#x"` the code parses the query as `{a: "1#x"}` (the `#x`
fragment stays inside the value), while the spec-described behaviour
(`specQueryOfUrl`) yields `{a: "1"}`; moreover for `"/a?x=1?y=2"` the code
takes only the text between the first and second `?` as the query (`{x:
"1"}`), not everything after the first `?` as the claim's "split at the
first `?`" prescribes (`{x: "1?y=2"}`). -/
theorem fragment_not_discarded :
    renderQuery "/?a=1#x" = [("a", "1#x")] ∧
    specQueryOfUrl "/?a=1#x" = [("a", "1")] ∧
    renderQuery "/?a=1#x" ≠ specQueryOfUrl "/?a=1#x" ∧
    renderQuery "/a?x=1?y=2" = [("x", "1")] ∧
    specQueryOfUrl "/a?x=1?y=2" = [("x", "1?y=2")] := by
  refine ⟨by decide, by decide, by decide, by decide, by decide⟩

/-- C8 amended: resolution splits the URL at `?` separators — the path is the
text before the first `?`; the query string is the text between the first and
second `?` (text after a second `?` is dropped, and there is no fragment
handling: `#` is an ordinary character) — and the query string is parsed into
a mapping in which, for duplicate keys, the last occurrence wins. -/
theorem url_split_query_lastwins :
    (∀ url : String,
       pathnameOfUrl url = String.mk (url.toList.takeWhile (fun c => c ≠ '?'))) ∧
    (∀ url : String,
       queryStringOfUrl url =
         if url.toList.contains '?' then
           some (String.mk
             (((url.toList.dropWhile (fun c => c ≠ '?')).drop 1).takeWhile
               (fun c => c ≠ '?')))
         else none) ∧
    (∀ (ps : List (String × String)) (k : String),
       lookupAssoc (ps.foldl (fun m kv => upsertAssoc m kv.1 kv.2) []) k =
         ps.foldl (fun acc kv => if kv.1 = k then some kv.2 else acc) none) := by
  refine ⟨?_, ?_, ?_⟩
  · intro url
    rw [pathnameOfUrl, splitOnChar_head]
  · intro url
    rw [queryStringOfUrl, List.get?_eq_getElem?, splitOnChar_second]
    by_cases h : url.toList.contains '?'
    · rw [if_pos h, if_pos h]
      rfl
    · rw [if_neg h, if_neg h]
      rfl
  · intro ps k
    rw [lookupAssoc_foldl_upsert]
    rfl

/-- C9 counterexample: registering the malformed pattern `"/product/:"`
(unterminated parameter marker) does NOT raise a configuration error — the
entry is appended like any other, registers no parameter names (the lone `:`
stays a literal), and at match time it matches exactly the literal path
`"/product/:"`. -/
theorem unterminated_marker_registers :
    (addRoute [] "/product/:" "product").length = 1 ∧
    ((addRoute [] "/product/:" "product").headD
       { path := "", toks := [], paramNames := [], handler := "" }).paramNames = [] ∧
    findRoute (addRoute [] "/product/:" "product") "/product/:" =
      some { handler := "product", params := [], path := "/product/:" } := by
  refine ⟨by decide, by decide, by decide⟩

/-- C9 amended: for every pattern (over plain path characters), registration
succeeds without error, appending exactly one entry carrying the compiled
matcher; a pattern with an unterminated parameter marker is not rejected at
registration — its `:` is kept as a literal and no parameter is registered
for it — so any failure surfaces only as a non-match at match time. -/
theorem addroute_never_errors (routes : List Route) (path handler : String) :
    (addRoute routes path handler).length = routes.length + 1 ∧
    lastElem? (addRoute routes path handler) =
      some { path := path
             toks := compilePattern path
             paramNames := paramNamesOf (compilePattern path)
             handler := handler } ∧
    paramNamesOf (compilePattern "/product/:") = [] := by
  refine ⟨by simp [addRoute], ?_, by decide⟩
  rw [addRoute]
  induction routes with
  | nil => rfl
  | cons r rs ih =>
    rw [List.cons_append,
        lastElem?_cons_of_ne_nil _ _ (by simp)]
    exact ih
